import Mathlib

/-!
Verification of `schrodinger/ldclientplus` (shallow embedding).

The repository has two source files:

* `src/ldclientplus/ldclientplus.py` — the `LDClientPlus` convenience
  layer: a bounded retry wrapper `retry_api_call` around remote calls,
  and the report-export orchestration `dump_live_report` /
  `dump_live_report_to_file`.
* `src/ldclientplus/DynamicLDClient.py` — the dynamic loader: the
  `ExtraModules` attribute-dict, version-file scanning
  (`_get_ldclient_version`), the derived module name, the `_get_api`
  setup sequence, and `close` (scratch-directory / `sys.path` cleanup).

Each Python function is embedded as a Lean function.  Exceptions become
explicit `Except`/outcome values, and the observable side effects the
spec talks about (remote calls issued, files written, directory on disk,
`sys.path` contents) are threaded as explicit state / trace values.
-/

namespace LDClientPlus

/-! ## Retry wrapper (`ldclientplus.py`, lines 55–69)

```python
def retry_api_call(self, func, lr_id, retry=10, action="", **kwargs):
    for n in range(retry):
        try:
            return func(lr_id, **kwargs)
        except (HTTPError, ConnectionError,
                self.extra_modules.client.ServerProcessingError) as e:
            sleep(randint(1, 10))
    logger.error(...)
    return None
```

A call attempt is modelled by its outcome: a returned value, one of the
three transient exception classes (caught and retried), or any other
exception (uncaught, propagates).  The function under retry is modelled
as a map from the 0-based attempt index to that attempt's outcome, and
the result records how many calls were made, so "called exactly r
times" is a statement about the embedding. -/

/-- Outcome of one invocation of the wrapped function: a normal return,
a transient error (`HTTPError`, `ConnectionError` or the vendor
`ServerProcessingError` — the classes named in the `except` clause), or
any other exception, which the wrapper does not catch. -/
inductive CallOutcome (α : Type) where
  | ok (v : α)
  | transient
  | fatal
deriving DecidableEq, Repr

/-- Result of `retry_api_call`: either a value is returned (`none` when
the loop exhausts `retry` attempts and falls through to `return None`)
or an uncaught exception propagates.  `calls` counts the invocations of
the wrapped function that were made. -/
inductive RetryResult (α : Type) where
  | returned (v : Option α) (calls : Nat)
  | raised (calls : Nat)
deriving DecidableEq, Repr

/-- The `for n in range(retry)` loop: `n` is the next attempt index,
the second argument the remaining iterations. -/
def retry_go {α : Type} (f : Nat → CallOutcome α) (n : Nat) : Nat → RetryResult α
  | 0 => .returned none n
  | fuel + 1 =>
    match f n with
    | .ok v => .returned (some v) (n + 1)
    | .transient => retry_go f (n + 1) fuel
    | .fatal => .raised (n + 1)

/-- Embedding of `LDClientPlus.retry_api_call`, for a wrapped function
`f` (indexed by attempt number) and retry bound `retry`. -/
def retry_api_call {α : Type} (f : Nat → CallOutcome α) (retry : Nat) : RetryResult α :=
  retry_go f 0 retry

/-! ## Report export (`ldclientplus.py`, lines 71–116)

`dump_live_report` issues up to four remote calls, each through
`retry_api_call`; a wrapped call's observable result is a value or
`None` (after exhausting retries).  The oracle below gives each
endpoint's wrapped result; the embedding records the sequence of remote
calls issued (with the arguments the code passes) as a trace. -/

/-- Result of `self.api.live_report_metadata`: the `lr` object.  The
code reads `report_level` and `experiment_column_id` off it with
`getattr(..., default)`, so each field is `none` when the attribute is
absent. -/
structure LRMeta where
  report_level : Option String
  experiment_column_id : Option Nat
deriving DecidableEq, Repr

/-- Oracle for the four retry-wrapped endpoints used by
`dump_live_report`.  Each field is the value the corresponding
`retry_api_call` invocation returns; `none` is the empty result after
exhausted retries.  Payloads of `execute_live_report` and
`live_report_results_metadata` are only tested against `None`, so they
are opaque numbers; the export result is the CSV byte string. -/
structure ApiOracle where
  live_report_metadata : Option LRMeta
  execute_live_report : Option Nat
  live_report_results_metadata : Option Nat
  export_live_report : Option (List Nat)
deriving DecidableEq, Repr

/-- A remote call issued by `dump_live_report`, with the arguments the
source passes to `retry_api_call` (the retry bound, and the keyword
arguments forwarded to the endpoint). -/
inductive RemoteCall where
  | metaFetch (lr_id : String) (retry : Nat)
  | execute (lr_id : String) (retry : Nat) (use_cached : Bool)
      (report_level : String) (experiment_column_id : Option Nat)
  | resultsMeta (lr_id : String) (retry : Nat)
      (report_level : String) (experiment_column_id : Option Nat)
  | exportCsv (lr_id : String) (retry : Nat)
deriving DecidableEq, Repr

/-- The stage a remote call belongs to, forgetting its arguments. -/
inductive Stage where
  | metaFetch
  | execute
  | resultsMeta
  | exportCsv
deriving DecidableEq, Repr

def RemoteCall.stage : RemoteCall → Stage
  | .metaFetch _ _ => .metaFetch
  | .execute _ _ _ _ _ => .execute
  | .resultsMeta _ _ _ _ => .resultsMeta
  | .exportCsv _ _ => .exportCsv

/-- Observable result of `dump_live_report`: the returned CSV (or
`None`) and the trace of remote calls issued, in order. -/
structure DumpResult where
  csv : Option (List Nat)
  trace : List RemoteCall
deriving DecidableEq, Repr

/-- Embedding of `LDClientPlus.dump_live_report` (lines 71–108).  When
`report_level` is `None` the metadata endpoint is queried first (with
the default retry bound 10, not the `retry` parameter) and
`report_level` / `experiment_column_id` are re-read from the result via
`getattr` with defaults `'PARENT'` / `None`; the remaining three stages
each return `None` overall (with a logged error) when their wrapped
call returns `None`. -/
def dump_live_report (api : ApiOracle) (lr_id : String)
    (report_level : Option String) (experiment_column_id : Option Nat)
    (use_cached : Bool) (retry : Nat) : DumpResult :=
  let lvl : String × Option Nat × List RemoteCall :=
    match report_level with
    | none =>
      let lr := api.live_report_metadata
      let rl : String :=
        match lr with
        | none => "PARENT"
        | some m => match m.report_level with | none => "PARENT" | some x => x
      let ec : Option Nat :=
        match lr with
        | none => none
        | some m => m.experiment_column_id
      (rl, ec, [RemoteCall.metaFetch lr_id 10])
    | some rl => (rl, experiment_column_id, [])
  let rl := lvl.1
  let ec := lvl.2.1
  let t1 := lvl.2.2 ++ [RemoteCall.execute lr_id retry use_cached rl ec]
  match api.execute_live_report with
  | none => { csv := none, trace := t1 }
  | some _ =>
    let t2 := t1 ++ [RemoteCall.resultsMeta lr_id retry rl ec]
    match api.live_report_results_metadata with
    | none => { csv := none, trace := t2 }
    | some _ =>
      let t3 := t2 ++ [RemoteCall.exportCsv lr_id retry]
      match api.export_live_report with
      | none => { csv := none, trace := t3 }
      | some c => { csv := some c, trace := t3 }

/-- Observable outcome of `dump_live_report_to_file`: bytes written to
the named file, the "dump was empty" error logged (no file created), or
an exception raised.  `len(csv)` on the `None` returned by a failed
`dump_live_report` raises `TypeError`. -/
inductive FileOutcome where
  | wrote (filename : String) (bytes : List Nat)
  | loggedEmpty
  | raisedTypeError
deriving DecidableEq, Repr

/-- Embedding of `LDClientPlus.dump_live_report_to_file`
(lines 110–116).

```python
def dump_live_report_to_file(self, lr_id, filename, report_level=None,
                             experiment_column_id=None, use_cached=False, retry=10):
    csv = self.dump_live_report(lr_id, report_level=None,
                                experiment_column_id=None, use_cached=False, retry=10)
    if len(csv) > 0:
        with open(filename, 'wb') as fh:
            fh.write(csv)
    else:
        logger.error(f"LR {lr_id} dump was empty.")
```

Note the call on line 111 passes the literal defaults `None, None,
False, 10` to `dump_live_report`, not this function's own parameters,
and `len(csv)` raises `TypeError` when `csv` is `None`. -/
def dump_live_report_to_file (api : ApiOracle) (lr_id filename : String)
    (report_level : Option String) (experiment_column_id : Option Nat)
    (use_cached : Bool) (retry : Nat) : FileOutcome × List RemoteCall :=
  let d := dump_live_report api lr_id none none false 10
  match d.csv with
  | none => (FileOutcome.raisedTypeError, d.trace)
  | some b =>
    if b.length > 0 then (FileOutcome.wrote filename b, d.trace)
    else (FileOutcome.loggedEmpty, d.trace)

end LDClientPlus

namespace DynamicLDClient

/-! ## `ExtraModules` (`DynamicLDClient.py`, lines 15–38)

A `dict` subclass whose `__getattr__` is

```python
def __getattr__(self, name):
    if name in self:
        return self[name]
```

so a missing key falls off the end of the function and returns `None`
(instead of the `AttributeError` that `__getattr__` would otherwise
signal).  The dict is modelled as an association list of string keys
(a Python dict has no duplicate keys, which proofs state as `Nodup` on
the key list); values are opaque Python objects, one of which is
`None`. -/

/-- A Python value as far as `ExtraModules` is concerned: `None`, a
loaded module, or a nested mapping. -/
inductive PyVal where
  | none
  | module (name : String)
  | dict (entries : List (String × PyVal))

/-- Embedding of `ExtraModules.__getattr__`:
`if name in self: return self[name]` — and implicitly `return None`
when the key is absent. -/
def getattr_ (e : List (String × PyVal)) (name : String) : PyVal :=
  match e.lookup name with
  | some v => v
  | Option.none => PyVal.none

/-! ## Version-file scanning (`DynamicLDClient.py`, lines 101–113)

```python
def _get_ldclient_version(self):
    fn = os.path.join(self._ldclient_dir, 'ldclient_version.py')
    try:
        with open(fn, 'r') as fin:
            for line in fin:
                m = re.match("VERSION = [\"']([0-9]+.[0-9]+.[0-9]+)[\"']", line)
                if m:
                    return m.group(1)
            else:
                raise RuntimeError(f"Could not determine ldclient version from {fn}")
    except IOError:
        logger.exception("ldclient_version.py not present. ...")
```

A missing file raises `IOError`, which is caught and logged; the
function then falls through and returns `None`.  A present file is
scanned line by line; the first line matching the regex yields
`m.group(1)`; if no line matches, the `for`/`else` raises
`RuntimeError` (not caught by the `except IOError`).

The regex is modelled below.  `re.match` anchors at the start of the
line; in the pattern the two `.` are unescaped and match any character;
`[0-9]+` is matched greedily with backtracking (longest-first). -/

/-- All splits of `cs` into a nonempty digit prefix and the rest, in
greedy (longest-first) order — the order a backtracking `[0-9]+` tries. -/
def digitSplits (cs : List Char) : List (List Char × List Char) :=
  let d := cs.takeWhile Char.isDigit
  let r := cs.dropWhile Char.isDigit
  let n := d.length
  (List.range n).map fun k => (d.take (n - k), d.drop (n - k) ++ r)

/-- Match `([0-9]+.[0-9]+.[0-9]+)["']` against `cs` (the part of the
line after the opening quote), returning the group on success. -/
def matchVersionCore (cs : List Char) : Option (List Char) :=
  (digitSplits cs).findSome? fun p1 =>
    match p1.2 with
    | [] => Option.none
    | c1 :: r2 =>
      (digitSplits r2).findSome? fun p2 =>
        match p2.2 with
        | [] => Option.none
        | c2 :: r4 =>
          (digitSplits r4).findSome? fun p3 =>
            match p3.2 with
            | [] => Option.none
            | q2 :: _ =>
              if q2 = '"' ∨ q2 = '\'' then
                some (p1.1 ++ c1 :: p2.1 ++ c2 :: p3.1)
              else Option.none

/-- Strip a literal character prefix, returning the remainder. -/
def stripLit : List Char → List Char → Option (List Char)
  | [], cs => some cs
  | _ :: _, [] => Option.none
  | p :: ps, c :: cs => if c = p then stripLit ps cs else Option.none

/-- Embedding of
`re.match("VERSION = [\"']([0-9]+.[0-9]+.[0-9]+)[\"']", line)`,
returning `m.group(1)` when the line matches. -/
def matchVersion (line : String) : Option String :=
  match stripLit "VERSION = ".data line.data with
  | Option.none => Option.none
  | some rest =>
    match rest with
    | [] => Option.none
    | q :: rest2 =>
      if q = '"' ∨ q = '\'' then
        match matchVersionCore rest2 with
        | some grp => some (String.mk grp)
        | Option.none => Option.none
      else Option.none

/-- Embedding of `DynamicLDClient._get_ldclient_version`.  The version
file is
`none` when absent (the `IOError` branch: logged, returns `None`) or
`some lines`; a file with no matching line raises `RuntimeError`
("Could not determine ldclient version"), modelled as the `error`
case. -/
def _get_ldclient_version (file : Option (List String)) : Except Unit (Option String) :=
  match file with
  | Option.none => .ok Option.none
  | some lines =>
    match lines.findSome? matchVersion with
    | some v => .ok (some v)
    | Option.none => .error ()

/-- Python `str.replace(old, new)` for a one-character `old` pattern:
every occurrence of the character is replaced by `new`.  (The only call
site, line 153, uses the one-character pattern `'.'` with an empty
replacement.) -/
def pyReplaceChar (old : Char) (new : List Char) : List Char → List Char
  | [] => []
  | c :: cs =>
    if c = old then new ++ pyReplaceChar old new cs
    else c :: pyReplaceChar old new cs

/-- The module name derived on line 153:
`f"ldclient_{ldclient_version.replace('.', '')}"`. -/
def ldclient_module_name (version : String) : String :=
  "ldclient_" ++ String.mk (pyReplaceChar '.' [] version.data)

/-! ## `_get_api` / `close` state machine (`DynamicLDClient.py`, lines 115–213)

The state the spec's claims are about: the scratch directory
(`self._tmp_dir`, created by `tempfile.mkdtemp()` in `__init__` before
`_get_api` runs), whether it still exists on disk, the
`self._ldclient_dir` attribute (`None` until the extracted folder is
found), and `sys.path`.  The environment holds the outcome of each
fallible external step. -/

structure SessionState where
  tmpDir : Option String
  tmpDirOnDisk : Bool
  ldclientDir : Option String
  sysPath : List String
deriving DecidableEq, Repr

/-- Outcomes of the external steps `_get_api` performs, in order:
the download (`requests.get`), the glob for the extracted
`ldclient-*` folder, the contents of `ldclient_version.py`
(`none` = file absent), the import of the renamed package, the imports
of the extra modules, and the login `ping()`. -/
structure Env where
  downloadOk : Bool
  globResult : Option String
  versionFile : Option (List String)
  importOk : Bool
  extraImportsOk : Bool
  pingOk : Bool
deriving DecidableEq, Repr

/-- The exception classes that can escape `_get_api`, by origin. -/
inductive GetApiError where
  | downloadError
  | extractNotFound
  | runtimeVersionError
  | attributeErrorVersion
  | importError
  | extraImportError
  | loginError
deriving DecidableEq, Repr

/-- Embedding of `DynamicLDClient.close` (lines 207–213):

```python
def close(self):
    try:
        sys.path.remove(self._ldclient_dir)
    except (ValueError, TypeError):
        pass
    if self._tmp_dir is not None and os.path.exists(self._tmp_dir):
        shutil.rmtree(self._tmp_dir)
```

`list.remove` deletes the first occurrence and raises `ValueError`
when absent (`TypeError` when `self._ldclient_dir` is `None`); both are
swallowed, so the `sys.path` update is `List.erase` of the dir when
set.  `rmtree` removes the scratch directory when it is set and still
on disk. -/
def close (s : SessionState) : SessionState :=
  let sysPath :=
    match s.ldclientDir with
    | Option.none => s.sysPath
    | some d => s.sysPath.erase d
  let onDisk :=
    match s.tmpDir with
    | Option.none => s.tmpDirOnDisk
    | some _ => false
  { s with sysPath := sysPath, tmpDirOnDisk := onDisk }

/-- The body of the outer `try` of `DynamicLDClient._get_api`
(lines 116–202), threading the session state.  Each fallible step
either continues or stops with the exception it raises:

* download failure (line 134 `raise`);
* `glob(...)[0]` raising `IndexError` when no `ldclient-*` folder
  exists (line 150), before `self._ldclient_dir` is assigned;
* `_get_ldclient_version`: a `RuntimeError` propagates, and when the
  version file is absent the returned `None` makes
  `ldclient_version.replace` on line 153 raise `AttributeError`;
* `sys.path.insert(0, self._ldclient_dir)` (line 160), then the imports
  (an `ImportError` is re-raised with `sys.path` still holding the
  dir), then `sys.path.remove(self._ldclient_dir)` (line 185);
* `ping()` failure (line 200 `raise`). -/
def _get_api_body (env : Env) (s : SessionState) :
    Except GetApiError Unit × SessionState :=
  if ¬ env.downloadOk then (.error .downloadError, s)
  else
    match env.globResult with
    | Option.none => (.error .extractNotFound, s)
    | some dir =>
      let s := { s with ldclientDir := some dir }
      match _get_ldclient_version env.versionFile with
      | .error _ => (.error .runtimeVersionError, s)
      | .ok Option.none => (.error .attributeErrorVersion, s)
      | .ok (some _) =>
        let s := { s with sysPath := dir :: s.sysPath }
        if ¬ env.importOk then (.error .importError, s)
        else if ¬ env.extraImportsOk then (.error .extraImportError, s)
        else
          let s := { s with sysPath := s.sysPath.erase dir }
          if ¬ env.pingOk then (.error .loginError, s)
          else (.ok (), s)

/-- Embedding of `DynamicLDClient._get_api` (lines 115–205): the body
above wrapped
in `except: self.close(); raise` — on any error the state is cleaned by
`close` before the exception propagates. -/
def _get_api (env : Env) (s : SessionState) :
    Except GetApiError Unit × SessionState :=
  match _get_api_body env s with
  | (.ok a, s1) => (.ok a, s1)
  | (.error e, s1) => (.error e, close s1)

end DynamicLDClient

/-! ## Concrete inputs used in witnesses and counterexamples -/

namespace LDClientPlus

/-- Oracle on which every retry-wrapped remote call returns `None`. -/
def apiEmptyAll : ApiOracle :=
  { live_report_metadata := none
    execute_live_report := none
    live_report_results_metadata := none
    export_live_report := none }

/-- Oracle on which the export succeeds but yields an empty byte
string. -/
def apiEmptyCsv : ApiOracle :=
  { live_report_metadata := some { report_level := some "SNAPSHOT", experiment_column_id := some 4 }
    execute_live_report := some 0
    live_report_results_metadata := some 0
    export_live_report := some [] }

/-- Oracle on which every stage succeeds; the export yields one byte. -/
def apiOkCsv : ApiOracle :=
  { live_report_metadata := some { report_level := some "PARENT", experiment_column_id := none }
    execute_live_report := some 1
    live_report_results_metadata := some 1
    export_live_report := some [65] }

/-- Oracle on which `execute_live_report` returns `None` while every
later stage would have succeeded. -/
def apiExecFail : ApiOracle :=
  { live_report_metadata := some { report_level := some "L5", experiment_column_id := some 3 }
    execute_live_report := none
    live_report_results_metadata := some 2
    export_live_report := some [1, 2] }

end LDClientPlus

namespace DynamicLDClient

/-- A concrete `ExtraModules` mapping with one loaded module. -/
def extraModules0 : List (String × PyVal) :=
  [("models", PyVal.module "ldclient_8102.models")]

/-- Session state right after `__init__` created the scratch directory
(`self._tmp_dir = tempfile.mkdtemp()`), before `_get_api` runs. -/
def sInit : SessionState :=
  { tmpDir := some "/tmp/scratch0"
    tmpDirOnDisk := true
    ldclientDir := none
    sysPath := ["/usr/lib/python3"] }

/-- Environment where the initial download fails. -/
def envDownloadFail : Env :=
  { downloadOk := false
    globResult := none
    versionFile := none
    importOk := false
    extraImportsOk := false
    pingOk := false }

/-- Environment where the archive extracts but its folder lacks
`ldclient_version.py`. -/
def envNoVersionFile : Env :=
  { downloadOk := true
    globResult := some "/tmp/scratch0/ldclient-8.10"
    versionFile := none
    importOk := true
    extraImportsOk := true
    pingOk := true }

/-- Environment where every setup step succeeds; the version file holds
a matching `VERSION` line. -/
def envAllOk : Env :=
  { downloadOk := true
    globResult := some "/tmp/scratch0/ldclient-8.10"
    versionFile := some ["# header", "VERSION = \"8.10.2\""]
    importOk := true
    extraImportsOk := true
    pingOk := true }

end DynamicLDClient

/-! # Theorems -/

namespace LDClientPlus

/-- When every attempt is transient, each loop iteration makes one call
and retries, so starting at attempt `n` with `fuel` iterations left the
loop exhausts and returns `None` after `n + fuel` total calls. -/
theorem retry_go_all_transient {α : Type} (f : Nat → CallOutcome α)
    (h : ∀ n, f n = CallOutcome.transient) :
    ∀ (fuel n : Nat), retry_go f n fuel = RetryResult.returned none (n + fuel) := by
  intro fuel
  induction fuel with
  | zero => intro n; rfl
  | succ k ih =>
    intro n
    simp only [retry_go, h n]
    rw [ih (n + 1)]
    congr 1
    omega

/-- C1: a function that raises a transient error (`HTTPError`,
`ConnectionError`, or the vendor `ServerProcessingError`) on every
invocation is called by `retry_api_call` with retry count `r` exactly
`r` times, after which `retry_api_call` returns `None` instead of
raising. -/
theorem C1_retry_always_transient_returns_none {α : Type}
    (f : Nat → CallOutcome α) (r : Nat)
    (h : ∀ n, f n = CallOutcome.transient) :
    retry_api_call f r = RetryResult.returned none r := by
  have hgo := retry_go_all_transient f h r 0
  simpa [retry_api_call] using hgo

/-- Witness for C1 at the always-transient function and `retry = 3`. -/
theorem C1_witness :
    retry_api_call (fun _ => CallOutcome.transient (α := Nat)) 3
      = RetryResult.returned none 3 :=
  C1_retry_always_transient_returns_none _ 3 fun _ => rfl

/-- When attempts before the `N`-th are transient and the `N`-th
(0-based index `N - 1`) returns `v`, the loop started at attempt `n`
with enough remaining iterations returns `v` after `N` total calls. -/
theorem retry_go_succeeds {α : Type} (f : Nat → CallOutcome α) (v : α) (N : Nat)
    (hb : ∀ m, m + 1 < N → f m = CallOutcome.transient)
    (hs : f (N - 1) = CallOutcome.ok v) :
    ∀ (fuel n : Nat), n + 1 ≤ N → N ≤ n + fuel →
      retry_go f n fuel = RetryResult.returned (some v) N := by
  intro fuel
  induction fuel with
  | zero => intro n h1 h2; omega
  | succ k ih =>
    intro n h1 h2
    by_cases hn : n + 1 = N
    · have hfn : f n = CallOutcome.ok v := by
        have hn1 : n = N - 1 := by omega
        rw [hn1]; exact hs
      simp only [retry_go, hfn]
      rw [hn]
    · have hfn : f n = CallOutcome.transient := hb n (by omega)
      simp only [retry_go, hfn]
      exact ih (n + 1) (by omega) (by omega)

/-- C2: a function that raises a transient error on its first `N - 1`
invocations and succeeds on the `N`-th, with `N ≤ retry`, makes
`retry_api_call` return the `N`-th invocation's value after exactly `N`
calls — no further calls follow the first success. -/
theorem C2_retry_returns_nth_success {α : Type}
    (f : Nat → CallOutcome α) (v : α) (N r : Nat)
    (h1 : 1 ≤ N) (h2 : N ≤ r)
    (hb : ∀ m, m + 1 < N → f m = CallOutcome.transient)
    (hs : f (N - 1) = CallOutcome.ok v) :
    retry_api_call f r = RetryResult.returned (some v) N := by
  have hgo := retry_go_succeeds f v N hb hs r 0 (by omega) (by omega)
  simpa [retry_api_call] using hgo

/-- Witness for C2: one transient failure, success with 42 on the
second attempt, `retry = 5`. -/
theorem C2_witness :
    retry_api_call (fun n => if n = 0 then CallOutcome.transient else CallOutcome.ok 42) 5
      = RetryResult.returned (some 42) 2 :=
  C2_retry_returns_nth_success _ 42 2 5 (by omega) (by omega)
    (fun m hm => by
      have h0 : m = 0 := by omega
      subst h0
      rfl)
    rfl

end LDClientPlus

namespace DynamicLDClient

/-- C8: the module name the loader derives from the version string
`"1.2.3"` is `ldclient_123` (the prefix `ldclient_` followed by the
version with every dot removed). -/
theorem C8_module_name_from_version :
    ldclient_module_name "1.2.3" = "ldclient_123" := by decide

/-- Attribute access on a non-empty `ExtraModules` dict compares the
name against the first key and otherwise recurses. -/
theorem getattr_cons (k : String) (w : PyVal) (t : List (String × PyVal))
    (name : String) :
    getattr_ ((k, w) :: t) name = if name = k then w else getattr_ t name := by
  by_cases h : name = k
  · simp [getattr_, List.lookup, h]
  · have hbeq : (name == k) = false := beq_eq_false_iff_ne.mpr h
    simp [getattr_, List.lookup, h, hbeq]

/-- C10: on an `ExtraModules` mapping, attribute access for a name that
is not a key returns `None` instead of raising `AttributeError`, and
for a name that is a key it returns the stored value. -/
theorem C10_extra_modules_getattr (e : List (String × PyVal)) (name : String) :
    ((∀ v, (name, v) ∉ e) → getattr_ e name = PyVal.none) ∧
    ((e.map Prod.fst).Nodup → ∀ v, (name, v) ∈ e → getattr_ e name = v) := by
  induction e with
  | nil =>
    refine ⟨fun _ => rfl, fun _ v hv => ?_⟩
    simp at hv
  | cons p t ih =>
    obtain ⟨k, w⟩ := p
    refine ⟨?_, ?_⟩
    · intro habs
      rw [getattr_cons]
      have hk : ¬ name = k := fun h => habs w (by simp [h])
      rw [if_neg hk]
      exact ih.1 fun v hv => habs v (List.mem_cons_of_mem _ hv)
    · intro hnd v hv
      simp only [List.map_cons] at hnd
      rw [getattr_cons]
      rcases List.mem_cons.mp hv with h | h
      · injection h with hk hw
        rw [if_pos hk]
        exact hw.symm
      · by_cases hk : name = k
        · exact absurd (List.mem_map.mpr ⟨(name, v), h, hk⟩)
            (List.nodup_cons.mp hnd).1
        · rw [if_neg hk]
          exact ih.2 (List.nodup_cons.mp hnd).2 v h

/-- Witness for C10: on a concrete one-entry mapping, a missing name
yields `None` and a present name yields its stored module. -/
theorem C10_witness :
    getattr_ extraModules0 "client" = PyVal.none ∧
    getattr_ extraModules0 "models" = PyVal.module "ldclient_8102.models" := by
  constructor
  · exact (C10_extra_modules_getattr extraModules0 "client").1
      (by intro v hv; simp [extraModules0] at hv)
  · exact (C10_extra_modules_getattr extraModules0 "models").2
      (by simp [extraModules0]) _ (by simp [extraModules0])

end DynamicLDClient

namespace LDClientPlus

/-- C9: two invocations of `dump_live_report_to_file` that agree on
`lr_id` and `filename` behave identically regardless of
`report_level`, `experiment_column_id`, `use_cached` and `retry`: line
111 passes the literal defaults `None, None, False, 10` to
`dump_live_report` instead of this function's own parameters, so the
outcome and the remote calls issued (with their arguments) coincide
with those of the all-defaults invocation. -/
theorem C9_to_file_ignores_optional_params (api : ApiOracle)
    (lr_id filename : String)
    (rl1 rl2 : Option String) (ec1 ec2 : Option Nat)
    (uc1 uc2 : Bool) (r1 r2 : Nat) :
    dump_live_report_to_file api lr_id filename rl1 ec1 uc1 r1
      = dump_live_report_to_file api lr_id filename rl2 ec2 uc2 r2 ∧
    dump_live_report_to_file api lr_id filename rl1 ec1 uc1 r1
      = dump_live_report_to_file api lr_id filename none none false 10 :=
  ⟨rfl, rfl⟩

/-- Counterexample to C3: on an oracle whose stages all return `None`,
`dump_live_report` returns `None` and `dump_live_report_to_file` then
evaluates `len(None)`, raising `TypeError` — it neither logs the
"dump was empty" error nor returns quietly. -/
theorem C3_counterexample :
    (dump_live_report_to_file apiEmptyAll "17" "lr17.csv" none none false 10).1
      = FileOutcome.raisedTypeError ∧
    FileOutcome.raisedTypeError ≠ FileOutcome.loggedEmpty :=
  ⟨rfl, by decide⟩

/-- C3 as amended: bytes are written to the named file exactly when the
in-memory result of `dump_live_report` is non-empty; when the result is
present but empty no file is created and the "dump was empty" error is
logged without raising; when the result is absent (`None`) the call
raises `TypeError` from `len(csv)`. -/
theorem C3_to_file_write_log_or_raise (api : ApiOracle)
    (lr_id filename : String) (rl : Option String) (ec : Option Nat)
    (uc : Bool) (r : Nat) :
    ((dump_live_report api lr_id none none false 10).csv = none →
      (dump_live_report_to_file api lr_id filename rl ec uc r).1
        = FileOutcome.raisedTypeError) ∧
    (∀ b, (dump_live_report api lr_id none none false 10).csv = some b →
      0 < b.length →
      (dump_live_report_to_file api lr_id filename rl ec uc r).1
        = FileOutcome.wrote filename b) ∧
    ((dump_live_report api lr_id none none false 10).csv = some [] →
      (dump_live_report_to_file api lr_id filename rl ec uc r).1
        = FileOutcome.loggedEmpty) := by
  refine ⟨fun h => ?_, fun b hb hlen => ?_, fun h => ?_⟩
  · simp [dump_live_report_to_file, h]
  · simp [dump_live_report_to_file, hb, hlen]
  · simp [dump_live_report_to_file, h]

/-- Witness for the amended C3: a present-but-empty result logs the
error, and a non-empty result is written to the file. -/
theorem C3_witness :
    (dump_live_report_to_file apiEmptyCsv "3" "a.csv" none none false 10).1
      = FileOutcome.loggedEmpty ∧
    (dump_live_report_to_file apiOkCsv "4" "b.csv" (some "X") (some 9) true 2).1
      = FileOutcome.wrote "b.csv" [65] := by
  constructor
  · exact (C3_to_file_write_log_or_raise apiEmptyCsv "3" "a.csv" none none false 10).2.2 rfl
  · exact (C3_to_file_write_log_or_raise apiOkCsv "4" "b.csv" (some "X") (some 9) true 2).2.1
      [65] rfl (by decide)

/-- Counterexample to C7: on an oracle where the report-metadata stage
returns `None`, `dump_live_report` does not short-circuit — it still
issues the execute remote call afterwards (the trace continues past the
empty metadata stage). -/
theorem C7_counterexample :
    apiEmptyAll.live_report_metadata = none ∧
    (dump_live_report apiEmptyAll "5" none none false 10).trace.map RemoteCall.stage
      = [Stage.metaFetch, Stage.execute] :=
  ⟨rfl, rfl⟩

/-- C7 as amended: `dump_live_report` sequences the four remote stages
through the retry wrapper, but only the execute, results-metadata and
export stages short-circuit on an empty result (logging an error and
returning empty with no further remote call); the optional
report-metadata stage does not short-circuit — the execute call is
issued regardless — and an empty metadata result falls back to
`report_level = 'PARENT'`, `experiment_column_id = None`.  When all
stages succeed the export's bytes are returned. -/
theorem C7_orchestration (api : ApiOracle) (lr_id : String)
    (rl : Option String) (ec : Option Nat) (uc : Bool) (r : Nat) :
    Stage.execute ∈ (dump_live_report api lr_id rl ec uc r).trace.map RemoteCall.stage ∧
    (api.execute_live_report = none →
      (dump_live_report api lr_id rl ec uc r).csv = none ∧
      Stage.resultsMeta ∉ (dump_live_report api lr_id rl ec uc r).trace.map RemoteCall.stage ∧
      Stage.exportCsv ∉ (dump_live_report api lr_id rl ec uc r).trace.map RemoteCall.stage) ∧
    (api.live_report_results_metadata = none →
      (dump_live_report api lr_id rl ec uc r).csv = none ∧
      Stage.exportCsv ∉ (dump_live_report api lr_id rl ec uc r).trace.map RemoteCall.stage) ∧
    (api.export_live_report = none →
      (dump_live_report api lr_id rl ec uc r).csv = none) ∧
    (∀ c, api.export_live_report = some c → api.execute_live_report ≠ none →
      api.live_report_results_metadata ≠ none →
      (dump_live_report api lr_id rl ec uc r).csv = some c) := by
  rcases api with ⟨m, ex, rm, cs⟩
  cases rl <;> cases ex <;> cases rm <;> cases cs <;>
    simp [dump_live_report, RemoteCall.stage]

/-- Witness for the amended C7: an empty execute stage yields an empty
result with no export call issued, and a fully successful oracle
returns the exported bytes. -/
theorem C7_witness :
    ((dump_live_report apiExecFail "7" (some "X") none true 3).csv = none ∧
      Stage.exportCsv ∉ (dump_live_report apiExecFail "7" (some "X") none true 3).trace.map
        RemoteCall.stage) ∧
    (dump_live_report apiOkCsv "8" none none false 10).csv = some [65] := by
  constructor
  · have h := (C7_orchestration apiExecFail "7" (some "X") none true 3).2.1 rfl
    exact ⟨h.1, h.2.2⟩
  · exact (C7_orchestration apiOkCsv "8" none none false 10).2.2.2.2 [65] rfl
      (by simp [apiOkCsv]) (by simp [apiOkCsv])

end LDClientPlus

namespace DynamicLDClient

/-- Counterexample to C4: on a concrete setup whose extracted folder
lacks `ldclient_version.py`, `_get_api` fails with the `AttributeError`
raised by `ldclient_version.replace` on the `None` that
`_get_ldclient_version` returned (the `IOError` was caught and only
logged) — not with the version-determination `RuntimeError`. -/
theorem C4_counterexample :
    (_get_api envNoVersionFile sInit).1
      = Except.error GetApiError.attributeErrorVersion ∧
    GetApiError.attributeErrorVersion ≠ GetApiError.runtimeVersionError :=
  ⟨rfl, by decide⟩

/-- C4 as amended: for every archive whose extracted `ldclient-*`
folder lacks the `ldclient_version.py` file, `_get_api` fails — but by
raising `AttributeError` (from `None.replace` on line 153), the
version-determination failure having only been logged; the
version-determination `RuntimeError` is raised only when the file
exists with no matching `VERSION` line. -/
theorem C4_missing_version_file_attribute_error (env : Env)
    (s : SessionState) (d : String)
    (hdl : env.downloadOk = true) (hg : env.globResult = some d)
    (hv : env.versionFile = none) :
    (_get_api env s).1 = Except.error GetApiError.attributeErrorVersion := by
  simp [_get_api, _get_api_body, hdl, hg, hv, _get_ldclient_version]

/-- Witness for the amended C4, at the concrete no-version-file setup
started from an empty `sys.path`. -/
theorem C4_witness :
    (_get_api envNoVersionFile { sInit with sysPath := [] }).1
      = Except.error GetApiError.attributeErrorVersion :=
  C4_missing_version_file_attribute_error envNoVersionFile
    { sInit with sysPath := [] } "/tmp/scratch0/ldclient-8.10" rfl rfl rfl

/-- The body of `_get_api` never touches `self._tmp_dir`. -/
theorem get_api_body_preserves_tmpDir (env : Env) (s : SessionState) :
    ((_get_api_body env s).2).tmpDir = s.tmpDir := by
  rcases env with ⟨dl, g, vf, imp, ex, pg⟩
  rcases hv : _get_ldclient_version vf with u | ov
  · cases dl <;> cases g <;> simp [_get_api_body, hv]
  · rcases ov with _ | ver
    · cases dl <;> cases g <;> simp [_get_api_body, hv]
    · cases dl <;> cases g <;> cases imp <;> cases ex <;> cases pg <;>
        simp [_get_api_body, hv]

/-- C5: whenever `_get_api` stops with an error — download failure,
missing extracted folder, version failure, import failure, or
login/ping failure — the `except: self.close(); raise` wrapper removes
the scratch temporary directory from disk before the exception reaches
the caller. -/
theorem C5_error_cleans_scratch_dir (env : Env) (s : SessionState)
    (t : String) (e : GetApiError)
    (ht : s.tmpDir = some t)
    (he : (_get_api env s).1 = Except.error e) :
    ((_get_api env s).2).tmpDirOnDisk = false := by
  have hpres := get_api_body_preserves_tmpDir env s
  rcases hb : _get_api_body env s with ⟨res, s1⟩
  rw [hb] at hpres
  dsimp only at hpres
  cases res with
  | ok a => simp [_get_api, hb] at he
  | error e1 => simp [_get_api, hb, close, hpres, ht]

/-- Witness for C5 at a concrete failing download. -/
theorem C5_witness :
    ((_get_api envDownloadFail sInit).2).tmpDirOnDisk = false :=
  C5_error_cleans_scratch_dir envDownloadFail sInit "/tmp/scratch0"
    GetApiError.downloadError rfl rfl

/-- On success, `_get_api` leaves the session state unchanged except
for recording the extracted folder: the dir was pushed onto `sys.path`
for the imports and removed again on line 185 ("keep path clean"). -/
theorem get_api_success_state (env : Env) (s : SessionState) (d : String)
    (hg : env.globResult = some d)
    (hok : (_get_api env s).1 = Except.ok ()) :
    (_get_api env s).2 = { s with ldclientDir := some d } := by
  rcases env with ⟨dl, g, vf, imp, ex, pg⟩
  cases dl
  · simp [_get_api, _get_api_body] at hok
  · cases g with
    | none => simp [_get_api, _get_api_body] at hok
    | some dir =>
      obtain rfl : dir = d := by simpa using hg
      cases hv : _get_ldclient_version vf with
      | error u => simp [_get_api, _get_api_body, hv] at hok
      | ok ov =>
        cases ov with
        | none => simp [_get_api, _get_api_body, hv] at hok
        | some ver =>
          cases imp
          · simp [_get_api, _get_api_body, hv] at hok
          · cases ex
            · simp [_get_api, _get_api_body, hv] at hok
            · cases pg
              · simp [_get_api, _get_api_body, hv] at hok
              · simp [_get_api, _get_api_body, hv, List.erase_cons_head]

/-- C6: after a successful load (whose scratch dir path, a fresh
`mkdtemp` result, was not previously on `sys.path`), `close` removes
the scratch directory from disk and leaves the extracted dir's path off
`sys.path`; and `close` is idempotent — a second `close` changes
nothing and raises no error (the `ValueError`/`TypeError` from
`sys.path.remove` is swallowed, and the `os.path.exists` guard skips
`rmtree`). -/
theorem C6_close_after_load_idempotent (env : Env) (s : SessionState)
    (t d : String)
    (ht : s.tmpDir = some t)
    (hg : env.globResult = some d)
    (hfresh : d ∉ s.sysPath)
    (hok : (_get_api env s).1 = Except.ok ()) :
    (close ((_get_api env s).2)).tmpDirOnDisk = false ∧
    d ∉ (close ((_get_api env s).2)).sysPath ∧
    close (close ((_get_api env s).2)) = close ((_get_api env s).2) := by
  have hst := get_api_success_state env s d hg hok
  rw [hst]
  have herase : s.sysPath.erase d = s.sysPath := List.erase_of_not_mem hfresh
  refine ⟨?_, ?_, ?_⟩
  · simp [close, ht]
  · simpa [close, herase] using hfresh
  · simp [close, ht, herase]

/-- Witness for C6 at a fully successful concrete setup. -/
theorem C6_witness :
    (close ((_get_api envAllOk sInit).2)).tmpDirOnDisk = false ∧
    "/tmp/scratch0/ldclient-8.10" ∉ (close ((_get_api envAllOk sInit).2)).sysPath ∧
    close (close ((_get_api envAllOk sInit).2)) = close ((_get_api envAllOk sInit).2) :=
  C6_close_after_load_idempotent envAllOk sInit "/tmp/scratch0"
    "/tmp/scratch0/ldclient-8.10" rfl rfl (by decide) rfl

end DynamicLDClient
